import Mathlib

/-!
Shallow embedding of the file oauthenticator/openshift.py (class
OpenShiftOAuthenticator) and verification of its specification.

Modelling conventions:
* Python strings are `String`; a JSON group list is a `List String`.
  Python truthiness of a string is "non-empty", of a set or list is
  "non-empty", of a dict is "non-empty", of None is false.
* Python dicts with heterogeneous values (the user_info record) are
  association lists `List (String × Value)` in insertion order; dict
  assignment is `dictSet` (update in place when the key is already
  present, append otherwise), lookup is `dictGet`.
* Each `await self.fetch(req)` is modelled by passing its outcome in as
  a `FetchResult`: either a parsed body, a tornado HTTPError carrying
  its status code, or a tornado CurlError.  A raised Python exception is
  the `Except.error` side of a result.
* The network interactions of `authenticate` are oracles: a function
  from the token HTTPRequest actually issued to its outcome, and one
  `FetchResult` for the user-info GET.
-/

namespace OpenShift

/-- Python truthiness of a string: true iff the string is non-empty. -/
def pyTruthyStr (s : String) : Bool := !(s == "")

/-- Python truthiness of a set or list of group names: non-empty. -/
def pyTruthyGroups (l : List String) : Bool := !l.isEmpty

/-- The configurable state of an OpenShiftOAuthenticator instance that the
verified operations read: the two CA-bundle paths (ca_certs and
system_ca_certs, the empty string when unconfigured, as in the traitlets
defaults) and the two group sets (allowed_groups and admin_groups,
modelled as lists; only membership matters). -/
structure Config where
  ca_certs : String
  system_ca_certs : String
  allowed_groups : List String
  admin_groups : List String
deriving Repr, DecidableEq

/-- The OpenShift User object returned by the user-info endpoint: the code
reads the name field of its metadata and its group list. -/
structure OcpUser where
  metadata_name : String
  groups : List String
deriving Repr, DecidableEq

/-- OpenShiftOAuthenticator.user_in_groups (openshift.py lines 94-96):
the Python expression any(user_groups.intersection(allowed_groups)).
Python any tests the truthiness of each element of the intersection, and
a string is truthy iff it is non-empty. -/
def user_in_groups (user_groups allowed_groups : List String) : Bool :=
  (user_groups.filter (fun g => allowed_groups.contains g)).any pyTruthyStr

/-- The auth_state sub-dict built by _get_openshift_user_info, with keys
access_token and openshift_user. -/
structure AuthStateRec where
  access_token : String
  openshift_user : OcpUser
deriving Repr, DecidableEq

/-- A value stored in the user_info dict: the username string, the
auth_state sub-dict, or the admin boolean. -/
inductive Value where
  | str : String → Value
  | auth : AuthStateRec → Value
  | bool : Bool → Value
deriving Repr, DecidableEq

/-- The user_info dict, as an association list in insertion order. -/
abbrev UserInfo := List (String × Value)

/-- Python dict lookup, as an `Option` (`none` models a KeyError). -/
def dictGet (d : UserInfo) (k : String) : Option Value :=
  (d.find? (fun p => p.1 == k)).map (fun p => p.2)

/-- Python dict assignment: overwrite in place when the key is already
present, otherwise append (Python dicts preserve insertion order). -/
def dictSet (d : UserInfo) (k : String) (v : Value) : UserInfo :=
  if d.any (fun p => p.1 == k) then
    d.map (fun p => if p.1 == k then (k, v) else p)
  else d ++ [(k, v)]

/-- A Python exception that the modelled code can raise: a tornado
HTTPError with its status code, a tornado CurlError, or a KeyError on a
dict access. -/
inductive PyError where
  | httpError : Nat → PyError
  | curlError : PyError
  | keyError : String → PyError
deriving Repr, DecidableEq

/-- Outcome of one fetch: a parsed JSON body, a raised HTTPError with its
status code, or a raised CurlError. -/
inductive FetchResult (α : Type) where
  | ok : α → FetchResult α
  | httpError : Nat → FetchResult α
  | curlError : FetchResult α
deriving Repr, DecidableEq

/-- The user_info dict literal built at openshift.py lines 166-169: the
key name maps to the username and the key auth_state maps to the
sub-dict holding the access token and the raw OpenShift user object. -/
def base_user_info (access_token : String) (ocp_user : OcpUser) : UserInfo :=
  [("name", Value.str ocp_user.metadata_name),
   ("auth_state", Value.auth ⟨access_token, ocp_user⟩)]

/-- OpenShiftOAuthenticator._add_openshift_group_info (openshift.py
lines 176-197).  Reads the group list via the keys auth_state,
openshift_user, groups and the username via the key name (a missing key
would raise KeyError), then: if admin_groups is truthy and the user is
in the admin or allowed groups, admits with the admin key set to
is_admin; otherwise if the user is in the allowed groups, admits
unchanged; otherwise logs a warning and returns None.  In Python,
is_admin is assigned only under the admin_groups guard and is also read
only when that same guard holds, so computing it unconditionally here is
observationally identical. -/
def _add_openshift_group_info (cfg : Config) (user_info : UserInfo) :
    Except PyError (Option UserInfo) :=
  match dictGet user_info "auth_state" with
  | some (Value.auth st) =>
    match dictGet user_info "name" with
    | some (Value.str _username) =>
      let user_groups := st.openshift_user.groups
      let is_admin := user_in_groups user_groups cfg.admin_groups
      let user_in_allowed_group := user_in_groups user_groups cfg.allowed_groups
      if pyTruthyGroups cfg.admin_groups && (is_admin || user_in_allowed_group) then
        Except.ok (some (dictSet user_info "admin" (Value.bool is_admin)))
      else if user_in_allowed_group then
        Except.ok (some user_info)
      else
        Except.ok none
    | _ => Except.error (PyError.keyError "name")
  | _ => Except.error (PyError.keyError "auth_state")

/-- OpenShiftOAuthenticator._get_openshift_user_info (openshift.py
lines 138-174).  The argument fetchUser is the outcome of the
bearer-authenticated GET to userdata_url.  A raised HTTPError with code
401 yields None; any other HTTPError is re-raised; a CurlError is not
caught here and propagates.  On success the user_info dict is built and,
when allowed_groups or admin_groups is truthy, passed through
_add_openshift_group_info. -/
def _get_openshift_user_info (cfg : Config) (access_token : String)
    (fetchUser : FetchResult OcpUser) : Except PyError (Option UserInfo) :=
  match fetchUser with
  | FetchResult.curlError => Except.error PyError.curlError
  | FetchResult.httpError code =>
      if code == 401 then Except.ok none
      else Except.error (PyError.httpError code)
  | FetchResult.ok ocp_user =>
      if pyTruthyGroups cfg.allowed_groups || pyTruthyGroups cfg.admin_groups then
        _add_openshift_group_info cfg (base_user_info access_token ocp_user)
      else
        Except.ok (some (base_user_info access_token ocp_user))

/-- The part of the token HTTPRequest built by the local function
token_request (openshift.py lines 114-122) that varies between the two
attempts: the CA bundle passed as ca_certs.  URL, method, headers and
body are fixed. -/
structure TokenRequest where
  ca_certs : String
deriving Repr, DecidableEq

/-- The local function token_request (openshift.py lines 114-122): the
request uses the configured ca_certs when the flag
use_ca_certs_for_token_request is set, else system_ca_certs. -/
def token_request (cfg : Config) (use_ca_certs_for_token_request : Bool) :
    TokenRequest :=
  ⟨if use_ca_certs_for_token_request then cfg.ca_certs else cfg.system_ca_certs⟩

/-- The parsed token-endpoint response; the code reads its access_token
entry. -/
structure TokenResponse where
  access_token : String
deriving Repr, DecidableEq

/-- Observable outcome of one authenticate call: the returned value (or
raised exception), the final value of the mutable flag
use_ca_certs_for_token_request, and the token requests issued, in
order. -/
structure AuthOutcome where
  result : Except PyError (Option UserInfo)
  use_ca_certs_for_token_request : Bool
  token_requests : List TokenRequest
deriving Repr

/-- OpenShiftOAuthenticator.authenticate (openshift.py lines 98-136).
The argument use_ca is the value of the flag
use_ca_certs_for_token_request on entry; fetchToken gives the outcome of
the fetch for each token request actually issued.  The first fetch is
tried with the current flag; only CurlError is caught, in which case the
flag is negated and the fetch retried exactly once; any failure of the
retry (or a non-Curl failure of the first attempt) propagates.  On a
token response, the access token is extracted and
_get_openshift_user_info produces the returned user_info. -/
def authenticate (cfg : Config) (use_ca : Bool)
    (fetchToken : TokenRequest → FetchResult TokenResponse)
    (fetchUser : FetchResult OcpUser) : AuthOutcome :=
  let req1 := token_request cfg use_ca
  match fetchToken req1 with
  | FetchResult.ok resp =>
      ⟨_get_openshift_user_info cfg resp.access_token fetchUser, use_ca, [req1]⟩
  | FetchResult.httpError c =>
      ⟨Except.error (PyError.httpError c), use_ca, [req1]⟩
  | FetchResult.curlError =>
      let use_ca2 := !use_ca
      let req2 := token_request cfg use_ca2
      match fetchToken req2 with
      | FetchResult.ok resp =>
          ⟨_get_openshift_user_info cfg resp.access_token fetchUser, use_ca2,
            [req1, req2]⟩
      | FetchResult.httpError c =>
          ⟨Except.error (PyError.httpError c), use_ca2, [req1, req2]⟩
      | FetchResult.curlError =>
          ⟨Except.error PyError.curlError, use_ca2, [req1, req2]⟩

/-- Truthiness of the value _get_openshift_user_info returns: None is
falsy, a dict is truthy iff non-empty. -/
def pyTruthyUserInfo : Option UserInfo → Bool
  | none => false
  | some d => !d.isEmpty

/-- Observable outcome of refresh_user: the returned value (or raised
exception) and whether user.stop was awaited. -/
structure RefreshOutcome where
  result : Except PyError (Option UserInfo)
  stopped : Bool
deriving Repr

/-- OpenShiftOAuthenticator.refresh_user (openshift.py lines 199-207).
The argument stored_access_token is the access_token entry of the stored
auth state of the user.  The same _get_openshift_user_info used at login
is re-run; if it raises, the exception propagates before user.stop is
reached; if its result is falsy (None), user.stop is awaited; the lookup
result is returned either way. -/
def refresh_user (cfg : Config) (stored_access_token : String)
    (fetchUser : FetchResult OcpUser) : RefreshOutcome :=
  match _get_openshift_user_info cfg stored_access_token fetchUser with
  | Except.error e => ⟨Except.error e, false⟩
  | Except.ok user_info =>
      if pyTruthyUserInfo user_info then ⟨Except.ok user_info, false⟩
      else ⟨Except.ok user_info, true⟩

/-- The class-body statement at openshift.py line 35 sets
use_ca_certs_for_token_request by testing the truthiness of the name
ca_certs as bound in the class body at that point: that name denotes the
traitlets Unicode trait descriptor object created at line 33, not a
configured string value.  A traitlets TraitType instance defines neither
a length nor a boolean conversion, so as a plain Python object it is
truthy. -/
def ca_certs_class_body_binding_is_truthy : Bool := true

/-- The class attribute use_ca_certs_for_token_request (openshift.py
line 35), the initial value of the flag on a freshly constructed
authenticator. -/
def use_ca_certs_for_token_request_initial : Bool :=
  if ca_certs_class_body_binding_is_truthy then true else false

/-- The fetch oracle used to witness the retry behaviour of
authenticate: the token endpoint fails with a CurlError for the bundle
named A and succeeds for any other bundle. -/
def retryFetchToken : TokenRequest → FetchResult TokenResponse :=
  fun r => if r.ca_certs == "A" then FetchResult.curlError
           else FetchResult.ok ⟨"tok"⟩

/-- user_in_groups is true iff some element of both lists is a non-empty
string. -/
theorem user_in_groups_spec (u a : List String) :
    user_in_groups u a = true ↔ ∃ x ∈ u, x ∈ a ∧ x ≠ "" := by
  simp [user_in_groups, pyTruthyStr, List.any_eq_true, List.mem_filter]

/-- A group set is truthy iff it is non-empty. -/
theorem pyTruthyGroups_iff {l : List String} :
    pyTruthyGroups l = true ↔ l ≠ [] := by
  simp [pyTruthyGroups, List.isEmpty_iff]

/-- A group set is falsy iff it is empty. -/
theorem pyTruthyGroups_eq_false {l : List String} :
    pyTruthyGroups l = false ↔ l = [] := by
  simp [pyTruthyGroups, List.isEmpty_iff]

/-- Unfolding of _get_openshift_user_info on a successful GET. -/
theorem get_ok_unfold (cfg : Config) (tok : String) (ocp : OcpUser) :
    _get_openshift_user_info cfg tok (FetchResult.ok ocp) =
      if pyTruthyGroups cfg.allowed_groups || pyTruthyGroups cfg.admin_groups then
        _add_openshift_group_info cfg (base_user_info tok ocp)
      else Except.ok (some (base_user_info tok ocp)) := rfl

/-- Unfolding of _add_openshift_group_info on the freshly built
user_info dict: the dict lookups succeed and the admin assignment is an
append, because the key admin is not yet present. -/
theorem add_base_unfold (cfg : Config) (tok : String) (ocp : OcpUser) :
    _add_openshift_group_info cfg (base_user_info tok ocp) =
      (if pyTruthyGroups cfg.admin_groups &&
          (user_in_groups ocp.groups cfg.admin_groups ||
           user_in_groups ocp.groups cfg.allowed_groups) then
        Except.ok (some (base_user_info tok ocp ++
          [("admin", Value.bool (user_in_groups ocp.groups cfg.admin_groups))]))
      else if user_in_groups ocp.groups cfg.allowed_groups then
        Except.ok (some (base_user_info tok ocp))
      else Except.ok none) := by
  simp [_add_openshift_group_info, base_user_info, dictGet, dictSet, List.find?]

/-- A successful GET never makes the lookup raise. -/
theorem get_ok_is_ok (cfg : Config) (tok : String) (ocp : OcpUser) :
    ∃ r, _get_openshift_user_info cfg tok (FetchResult.ok ocp) = Except.ok r := by
  rw [get_ok_unfold, add_base_unfold]
  split
  · split
    · exact ⟨_, rfl⟩
    · split
      · exact ⟨_, rfl⟩
      · exact ⟨_, rfl⟩
  · exact ⟨_, rfl⟩

/-- Shape of an admitted user_info record: when admin_groups is truthy the
record is the base dict with the admin key appended, and the admin or
allowed membership test passed; when admin_groups is falsy the record is
the base dict unchanged. -/
theorem get_ok_output (cfg : Config) (tok : String) (ocp : OcpUser)
    (d : UserInfo)
    (h : _get_openshift_user_info cfg tok (FetchResult.ok ocp) =
      Except.ok (some d)) :
    (pyTruthyGroups cfg.admin_groups = true ∧
     (user_in_groups ocp.groups cfg.admin_groups = true ∨
      user_in_groups ocp.groups cfg.allowed_groups = true) ∧
     d = base_user_info tok ocp ++
       [("admin", Value.bool (user_in_groups ocp.groups cfg.admin_groups))]) ∨
    (pyTruthyGroups cfg.admin_groups = false ∧ d = base_user_info tok ocp) := by
  rw [get_ok_unfold, add_base_unfold] at h
  split at h
  · split at h
    · rename_i hcond
      rw [Bool.and_eq_true, Bool.or_eq_true] at hcond
      left
      injection h with h'
      injection h' with h''
      exact ⟨hcond.1, hcond.2, h''.symm⟩
    · rename_i hcond
      split at h
      · rename_i hiAl
        right
        refine ⟨?_, ?_⟩
        · cases hD : pyTruthyGroups cfg.admin_groups
          · rfl
          · exact absurd (by simp [hD, hiAl]) hcond
        · injection h with h'
          injection h' with h''
          exact h''.symm
      · simp at h
  · rename_i hcond
    right
    refine ⟨?_, ?_⟩
    · cases hD : pyTruthyGroups cfg.admin_groups
      · rfl
      · exact absurd (by simp [hD]) hcond
    · injection h with h'
      injection h' with h''
      exact h''.symm

/-- The lookup admits some user iff either no group set is configured, or
admin_groups is truthy and one of the two membership tests passes, or the
allowed membership test passes. -/
theorem get_ok_some_iff (cfg : Config) (tok : String) (ocp : OcpUser) :
    (∃ d, _get_openshift_user_info cfg tok (FetchResult.ok ocp) =
      Except.ok (some d)) ↔
    (pyTruthyGroups cfg.allowed_groups = false ∧
     pyTruthyGroups cfg.admin_groups = false) ∨
    (pyTruthyGroups cfg.admin_groups = true ∧
      (user_in_groups ocp.groups cfg.admin_groups = true ∨
       user_in_groups ocp.groups cfg.allowed_groups = true)) ∨
    user_in_groups ocp.groups cfg.allowed_groups = true := by
  cases hA : pyTruthyGroups cfg.allowed_groups <;>
  cases hD : pyTruthyGroups cfg.admin_groups <;>
  cases hiA : user_in_groups ocp.groups cfg.admin_groups <;>
  cases hiAl : user_in_groups ocp.groups cfg.allowed_groups <;>
    simp [get_ok_unfold, add_base_unfold, hA, hD, hiA, hiAl]

/-- C1 counterexample: with allowed_groups containing exactly the empty
string and admin_groups unconfigured, a user whose group set intersects
allowed_groups (the common element is the empty string) is nevertheless
denied: the lookup returns None, refuting admission-iff-intersection as
stated. -/
theorem C1_counterexample :
    (∃ x ∈ ([""] : List String), x ∈ ([""] : List String)) ∧
    ([""] : List String) ≠ [] ∧
    _get_openshift_user_info ⟨"", "", [""], []⟩ "tok"
      (FetchResult.ok ⟨"alice", [""]⟩) = Except.ok none := by
  refine ⟨⟨"", by simp⟩, by simp, rfl⟩

/-- C1 (amended): when admin_groups is configured (non-empty), admission
is granted iff the user groups share a non-empty group name with
admin_groups or with allowed_groups; when only allowed_groups is
configured, admission is granted iff the user groups share a non-empty
group name with allowed_groups; when neither set is configured, no group
check is performed and the user is admitted with the base record; on
denial the result is None, not a raised exception. -/
theorem C1_admission_policy (cfg : Config) (tok : String) (ocp : OcpUser) :
    (cfg.admin_groups ≠ [] →
      ((∃ d, _get_openshift_user_info cfg tok (FetchResult.ok ocp) =
          Except.ok (some d)) ↔
        ((∃ x ∈ ocp.groups, x ∈ cfg.admin_groups ∧ x ≠ "") ∨
         (∃ x ∈ ocp.groups, x ∈ cfg.allowed_groups ∧ x ≠ "")))) ∧
    (cfg.admin_groups = [] → cfg.allowed_groups ≠ [] →
      ((∃ d, _get_openshift_user_info cfg tok (FetchResult.ok ocp) =
          Except.ok (some d)) ↔
        (∃ x ∈ ocp.groups, x ∈ cfg.allowed_groups ∧ x ≠ ""))) ∧
    (cfg.admin_groups = [] → cfg.allowed_groups = [] →
      _get_openshift_user_info cfg tok (FetchResult.ok ocp) =
        Except.ok (some (base_user_info tok ocp))) ∧
    ((¬ ∃ d, _get_openshift_user_info cfg tok (FetchResult.ok ocp) =
        Except.ok (some d)) →
      _get_openshift_user_info cfg tok (FetchResult.ok ocp) =
        Except.ok none) := by
  refine ⟨?_, ?_, ?_, ?_⟩
  · intro hd
    have hdT : pyTruthyGroups cfg.admin_groups = true := pyTruthyGroups_iff.mpr hd
    rw [get_ok_some_iff]
    simp only [hdT, user_in_groups_spec]
    constructor
    · rintro (⟨_, hf⟩ | ⟨_, h⟩ | h)
      · exact absurd hf (by simp)
      · exact h
      · exact Or.inr h
    · intro h
      exact Or.inr (Or.inl ⟨trivial, h⟩)
  · intro hd ha
    have hdF : pyTruthyGroups cfg.admin_groups = false :=
      pyTruthyGroups_eq_false.mpr hd
    have haT : pyTruthyGroups cfg.allowed_groups = true :=
      pyTruthyGroups_iff.mpr ha
    rw [get_ok_some_iff]
    simp only [hdF, haT, user_in_groups_spec]
    constructor
    · rintro (⟨hf, _⟩ | ⟨hf, _⟩ | h)
      · exact absurd hf (by simp)
      · exact absurd hf (by simp)
      · exact h
    · intro h
      exact Or.inr (Or.inr h)
  · intro hd ha
    have hdF : pyTruthyGroups cfg.admin_groups = false :=
      pyTruthyGroups_eq_false.mpr hd
    have haF : pyTruthyGroups cfg.allowed_groups = false :=
      pyTruthyGroups_eq_false.mpr ha
    rw [get_ok_unfold]
    simp [haF, hdF]
  · intro hnot
    obtain ⟨r, hr⟩ := get_ok_is_ok cfg tok ocp
    cases r with
    | none => exact hr
    | some d => exact absurd ⟨d, hr⟩ hnot

/-- Witness for C1_admission_policy at concrete inputs, with the
hypotheses discharged. -/
theorem C1_admission_policy_witness :
    ((∃ d, _get_openshift_user_info ⟨"", "", ["g"], ["adm"]⟩ "tok"
        (FetchResult.ok ⟨"alice", ["g"]⟩) = Except.ok (some d)) ↔
      ((∃ x ∈ (["g"] : List String), x ∈ (["adm"] : List String) ∧ x ≠ "") ∨
       (∃ x ∈ (["g"] : List String), x ∈ (["g"] : List String) ∧ x ≠ ""))) ∧
    _get_openshift_user_info ⟨"", "", [], []⟩ "tok"
        (FetchResult.ok ⟨"alice", ["g"]⟩) =
      Except.ok (some (base_user_info "tok" ⟨"alice", ["g"]⟩)) :=
  ⟨(C1_admission_policy ⟨"", "", ["g"], ["adm"]⟩ "tok" ⟨"alice", ["g"]⟩).1
      (by decide),
   (C1_admission_policy ⟨"", "", [], []⟩ "tok" ⟨"alice", ["g"]⟩).2.2.1 rfl rfl⟩

/-- C2 counterexample: with admin_groups containing exactly the empty
string and allowed_groups containing a, a user with groups empty-string
and a authenticates successfully (admin_groups is configured and
non-empty), the user group set intersects admin_groups (common element:
the empty string), yet the admin value in the returned record is false,
refuting admin-iff-intersection as stated. -/
theorem C2_counterexample :
    ([""] : List String) ≠ [] ∧
    (∃ x ∈ (["", "a"] : List String), x ∈ ([""] : List String)) ∧
    _get_openshift_user_info ⟨"", "", ["a"], [""]⟩ "tok"
        (FetchResult.ok ⟨"bob", ["", "a"]⟩) =
      Except.ok (some (base_user_info "tok" ⟨"bob", ["", "a"]⟩ ++
        [("admin", Value.bool false)])) ∧
    dictGet (base_user_info "tok" ⟨"bob", ["", "a"]⟩ ++
        [("admin", Value.bool false)]) "admin" = some (Value.bool false) := by
  refine ⟨by simp, ⟨"", by simp⟩, rfl, rfl⟩

/-- C2 (amended): for every user whose authentication succeeds while
admin_groups is configured, the admin entry of the returned record is
true iff the user group set shares a non-empty group name with
admin_groups. -/
theorem C2_admin_flag_iff (cfg : Config) (tok : String) (ocp : OcpUser)
    (d : UserInfo) (hA : cfg.admin_groups ≠ [])
    (h : _get_openshift_user_info cfg tok (FetchResult.ok ocp) =
      Except.ok (some d)) :
    dictGet d "admin" = some (Value.bool true) ↔
      ∃ x ∈ ocp.groups, x ∈ cfg.admin_groups ∧ x ≠ "" := by
  have hdT : pyTruthyGroups cfg.admin_groups = true := pyTruthyGroups_iff.mpr hA
  rcases get_ok_output cfg tok ocp d h with ⟨_, _, rfl⟩ | ⟨hdF, rfl⟩
  · have hget : dictGet (base_user_info tok ocp ++
        [("admin", Value.bool (user_in_groups ocp.groups cfg.admin_groups))])
          "admin" =
        some (Value.bool (user_in_groups ocp.groups cfg.admin_groups)) := rfl
    rw [hget, ← user_in_groups_spec]
    cases user_in_groups ocp.groups cfg.admin_groups <;> simp
  · rw [hdT] at hdF
    cases hdF

/-- Witness for C2_admin_flag_iff at concrete inputs, with the hypotheses
discharged. -/
theorem C2_admin_flag_iff_witness :
    dictGet (base_user_info "tok" ⟨"alice", ["adm"]⟩ ++
        [("admin", Value.bool true)]) "admin" = some (Value.bool true) ↔
      ∃ x ∈ (["adm"] : List String), x ∈ (["adm"] : List String) ∧ x ≠ "" :=
  C2_admin_flag_iff ⟨"", "", [], ["adm"]⟩ "tok" ⟨"alice", ["adm"]⟩
    (base_user_info "tok" ⟨"alice", ["adm"]⟩ ++ [("admin", Value.bool true)])
    (by decide) rfl

/-- C3: for every configuration and access token, a 401 from the
user-info endpoint yields None without raising, and any HTTPError with a
status other than 401 propagates to the caller. -/
theorem C3_http_401_yields_no_user (cfg : Config) (tok : String) (c : Nat) :
    _get_openshift_user_info cfg tok (FetchResult.httpError 401) =
      Except.ok none ∧
    (c ≠ 401 →
      _get_openshift_user_info cfg tok (FetchResult.httpError c) =
        Except.error (PyError.httpError c)) := by
  refine ⟨rfl, fun h => ?_⟩
  simp [_get_openshift_user_info, h]

/-- Witness for C3_http_401_yields_no_user at status 500, with the
hypothesis discharged. -/
theorem C3_http_401_yields_no_user_witness :
    _get_openshift_user_info ⟨"", "", [], []⟩ "tok" (FetchResult.httpError 500) =
      Except.error (PyError.httpError 500) :=
  (C3_http_401_yields_no_user ⟨"", "", [], []⟩ "tok" 500).2 (by decide)

/-- C4: if the first token request fails with a CurlError, exactly one
retry is issued, using the alternate CA bundle (the flag is flipped, so
the retry uses the other of ca_certs and system_ca_certs); if the retry
succeeds, the token exchange succeeds and authentication proceeds with
the fetched access token; if the retry also fails with a CurlError, that
failure propagates with no further retry. -/
theorem C4_tls_retry_alternate_bundle (cfg : Config) (use_ca : Bool)
    (fetchToken : TokenRequest → FetchResult TokenResponse)
    (fetchUser : FetchResult OcpUser)
    (h1 : fetchToken (token_request cfg use_ca) = FetchResult.curlError) :
    (authenticate cfg use_ca fetchToken fetchUser).token_requests =
      [token_request cfg use_ca, token_request cfg (!use_ca)] ∧
    (authenticate cfg use_ca fetchToken fetchUser).use_ca_certs_for_token_request
      = !use_ca ∧
    (token_request cfg (!use_ca)).ca_certs =
      (if use_ca then cfg.system_ca_certs else cfg.ca_certs) ∧
    (∀ resp, fetchToken (token_request cfg (!use_ca)) = FetchResult.ok resp →
      (authenticate cfg use_ca fetchToken fetchUser).result =
        _get_openshift_user_info cfg resp.access_token fetchUser) ∧
    (fetchToken (token_request cfg (!use_ca)) = FetchResult.curlError →
      (authenticate cfg use_ca fetchToken fetchUser).result =
        Except.error PyError.curlError) := by
  refine ⟨?_, ?_, ?_, ?_, ?_⟩
  · unfold authenticate
    cases h2 : fetchToken (token_request cfg (!use_ca)) <;> simp [h1, h2]
  · unfold authenticate
    cases h2 : fetchToken (token_request cfg (!use_ca)) <;> simp [h1, h2]
  · cases use_ca <;> simp [token_request]
  · intro resp h2
    unfold authenticate
    simp [h1, h2]
  · intro h2
    unfold authenticate
    simp [h1, h2]

/-- Witness for C4_tls_retry_alternate_bundle with a concrete oracle that
fails on bundle A and succeeds on bundle B, hypotheses discharged. -/
theorem C4_tls_retry_alternate_bundle_witness :
    (authenticate ⟨"A", "B", [], []⟩ true retryFetchToken
        (FetchResult.ok ⟨"bob", ["g"]⟩)).token_requests =
      [token_request ⟨"A", "B", [], []⟩ true,
       token_request ⟨"A", "B", [], []⟩ (!true)] ∧
    (authenticate ⟨"A", "B", [], []⟩ true retryFetchToken
        (FetchResult.ok ⟨"bob", ["g"]⟩)).result =
      _get_openshift_user_info ⟨"A", "B", [], []⟩ "tok"
        (FetchResult.ok ⟨"bob", ["g"]⟩) :=
  ⟨(C4_tls_retry_alternate_bundle ⟨"A", "B", [], []⟩ true retryFetchToken
      (FetchResult.ok ⟨"bob", ["g"]⟩) rfl).1,
   (C4_tls_retry_alternate_bundle ⟨"A", "B", [], []⟩ true retryFetchToken
      (FetchResult.ok ⟨"bob", ["g"]⟩) rfl).2.2.2.1 ⟨"tok"⟩ rfl⟩

/-- C5: refresh re-runs the same user and group lookup used at login with
the stored access token (the refresh result is exactly the lookup
result), and when the lookup yields no user, user.stop is invoked and
the refresh result is the empty lookup result. -/
theorem C5_refresh_reruns_lookup (cfg : Config) (stored_access_token : String)
    (fetchUser : FetchResult OcpUser) :
    (refresh_user cfg stored_access_token fetchUser).result =
      _get_openshift_user_info cfg stored_access_token fetchUser ∧
    (_get_openshift_user_info cfg stored_access_token fetchUser =
        Except.ok none →
      (refresh_user cfg stored_access_token fetchUser).stopped = true ∧
      (refresh_user cfg stored_access_token fetchUser).result =
        Except.ok none) := by
  constructor
  · cases h : _get_openshift_user_info cfg stored_access_token fetchUser with
    | error e => simp [refresh_user, h]
    | ok ui =>
        by_cases hui : pyTruthyUserInfo ui = true <;> simp [refresh_user, h, hui]
  · intro h
    simp [refresh_user, h, pyTruthyUserInfo]

/-- Witness for C5_refresh_reruns_lookup: a user admitted with a stored
token who no longer satisfies the group policy is stopped, hypothesis
discharged. -/
theorem C5_refresh_reruns_lookup_witness :
    (refresh_user ⟨"", "", ["g"], []⟩ "tok"
        (FetchResult.ok ⟨"bob", []⟩)).stopped = true ∧
    (refresh_user ⟨"", "", ["g"], []⟩ "tok"
        (FetchResult.ok ⟨"bob", []⟩)).result = Except.ok none :=
  (C5_refresh_reruns_lookup ⟨"", "", ["g"], []⟩ "tok"
    (FetchResult.ok ⟨"bob", []⟩)).2 rfl

/-- C6: every successfully produced user-info record comes from a
successful GET, holds the username under the key name, holds under the
key auth_state the access token and the raw user object fetched from the
user-info endpoint, has no top-level key other than name, auth_state and
admin, and any admin entry is a boolean. -/
theorem C6_user_info_shape (cfg : Config) (tok : String)
    (fetchUser : FetchResult OcpUser) (d : UserInfo)
    (h : _get_openshift_user_info cfg tok fetchUser = Except.ok (some d)) :
    ∃ ocp_user : OcpUser, fetchUser = FetchResult.ok ocp_user ∧
      dictGet d "name" = some (Value.str ocp_user.metadata_name) ∧
      dictGet d "auth_state" = some (Value.auth ⟨tok, ocp_user⟩) ∧
      (∀ p ∈ d, p.1 = "name" ∨ p.1 = "auth_state" ∨ p.1 = "admin") ∧
      (∀ v, ("admin", v) ∈ d → ∃ b, v = Value.bool b) := by
  cases fetchUser with
  | curlError => simp [_get_openshift_user_info] at h
  | httpError c =>
      by_cases hc : (c == 401) = true <;> simp [_get_openshift_user_info, hc] at h
  | ok ocp =>
      refine ⟨ocp, rfl, ?_⟩
      rcases get_ok_output cfg tok ocp d h with ⟨_, _, rfl⟩ | ⟨_, rfl⟩
      · refine ⟨rfl, rfl, ?_, ?_⟩
        · intro p hp
          simp [base_user_info] at hp
          rcases hp with rfl | rfl | rfl <;> simp
        · intro v hv
          simp [base_user_info] at hv
          exact ⟨_, hv⟩
      · refine ⟨rfl, rfl, ?_, ?_⟩
        · intro p hp
          simp [base_user_info] at hp
          rcases hp with rfl | rfl <;> simp
        · intro v hv
          simp [base_user_info] at hv

/-- Witness for C6_user_info_shape at concrete inputs, hypothesis
discharged. -/
theorem C6_user_info_shape_witness : ∃ ocp_user : OcpUser,
    (FetchResult.ok (⟨"alice", ["g"]⟩ : OcpUser)) = FetchResult.ok ocp_user ∧
    dictGet (base_user_info "tok" ⟨"alice", ["g"]⟩) "name" =
      some (Value.str ocp_user.metadata_name) ∧
    dictGet (base_user_info "tok" ⟨"alice", ["g"]⟩) "auth_state" =
      some (Value.auth ⟨"tok", ocp_user⟩) ∧
    (∀ p ∈ base_user_info "tok" ⟨"alice", ["g"]⟩,
      p.1 = "name" ∨ p.1 = "auth_state" ∨ p.1 = "admin") ∧
    (∀ v, ("admin", v) ∈ base_user_info "tok" ⟨"alice", ["g"]⟩ →
      ∃ b, v = Value.bool b) :=
  C6_user_info_shape ⟨"", "", [], []⟩ "tok" (FetchResult.ok ⟨"alice", ["g"]⟩)
    (base_user_info "tok" ⟨"alice", ["g"]⟩) rfl

/-- C7 counterexample: a user whose groups intersect allowed_groups but
not admin_groups, while admin_groups is configured, authenticates
successfully but the returned record does carry an admin entry (with
value false), refuting the claim that no admin flag is present. -/
theorem C7_counterexample :
    ((∃ x ∈ (["a"] : List String), x ∈ (["a"] : List String) ∧ x ≠ "") ∧
     ¬(∃ x ∈ (["a"] : List String), x ∈ (["x"] : List String))) ∧
    _get_openshift_user_info ⟨"", "", ["a"], ["x"]⟩ "tok"
        (FetchResult.ok ⟨"bob", ["a"]⟩) =
      Except.ok (some (base_user_info "tok" ⟨"bob", ["a"]⟩ ++
        [("admin", Value.bool false)])) ∧
    dictGet (base_user_info "tok" ⟨"bob", ["a"]⟩ ++
        [("admin", Value.bool false)]) "admin" ≠ none := by
  refine ⟨⟨⟨"a", by simp⟩, by simp⟩, rfl, by simp [dictGet, base_user_info]⟩

/-- C7 (amended): for every user whose group set shares a non-empty group
name with allowed_groups and has no group in common with admin_groups,
authentication succeeds; the returned record carries no admin entry when
admin_groups is unconfigured, and carries an explicit admin value of
false when admin_groups is configured. -/
theorem C7_allowed_only_admission (cfg : Config) (tok : String) (ocp : OcpUser)
    (hAl : ∃ x ∈ ocp.groups, x ∈ cfg.allowed_groups ∧ x ≠ "")
    (hAd : ∀ x ∈ ocp.groups, x ∉ cfg.admin_groups) :
    ∃ d, _get_openshift_user_info cfg tok (FetchResult.ok ocp) =
        Except.ok (some d) ∧
      dictGet d "admin" =
        (if cfg.admin_groups.isEmpty then none
         else some (Value.bool false)) := by
  have hiAl : user_in_groups ocp.groups cfg.allowed_groups = true :=
    (user_in_groups_spec _ _).mpr hAl
  have hiA : user_in_groups ocp.groups cfg.admin_groups = false := by
    cases hx : user_in_groups ocp.groups cfg.admin_groups
    · rfl
    · obtain ⟨x, hxu, hxa, _⟩ := (user_in_groups_spec _ _).mp hx
      exact absurd hxa (hAd x hxu)
  have haT : pyTruthyGroups cfg.allowed_groups = true := by
    obtain ⟨x, _, hxa, _⟩ := hAl
    refine pyTruthyGroups_iff.mpr (fun he => ?_)
    rw [he] at hxa
    simp at hxa
  cases hD : pyTruthyGroups cfg.admin_groups
  · have hDe : cfg.admin_groups.isEmpty = true := by
      have := pyTruthyGroups_eq_false.mp hD
      simp [this]
    refine ⟨base_user_info tok ocp, ?_, ?_⟩
    · rw [get_ok_unfold, add_base_unfold]
      simp [haT, hD, hiAl]
    · rw [hDe]
      rfl
  · have hDe : cfg.admin_groups.isEmpty = false := by
      cases hx : cfg.admin_groups.isEmpty
      · rfl
      · rw [show cfg.admin_groups = [] from List.isEmpty_iff.mp hx] at hD
        simp [pyTruthyGroups] at hD
    refine ⟨base_user_info tok ocp ++ [("admin", Value.bool false)], ?_, ?_⟩
    · rw [get_ok_unfold, add_base_unfold]
      simp [haT, hD, hiAl, hiA]
    · rw [hDe]
      rfl

/-- Witness for C7_allowed_only_admission at concrete inputs with
admin_groups unconfigured, hypotheses discharged. -/
theorem C7_allowed_only_admission_witness :
    ∃ d, _get_openshift_user_info ⟨"", "", ["a"], []⟩ "tok"
        (FetchResult.ok ⟨"bob", ["a"]⟩) = Except.ok (some d) ∧
      dictGet d "admin" =
        (if ([] : List String).isEmpty then none
         else some (Value.bool false)) :=
  C7_allowed_only_admission ⟨"", "", ["a"], []⟩ "tok" ⟨"bob", ["a"]⟩
    ⟨"a", by simp⟩ (by simp)

/-- C8: on a freshly constructed authenticator the flag
use_ca_certs_for_token_request is true unconditionally, because the
class body tests the truthiness of the Unicode trait descriptor rather
than the configured ca_certs value, so for every configuration the first
token request uses the ca_certs bundle, even when ca_certs is empty. -/
theorem C8_initial_flag_always_true (cfg : Config)
    (fetchToken : TokenRequest → FetchResult TokenResponse)
    (fetchUser : FetchResult OcpUser) :
    use_ca_certs_for_token_request_initial = true ∧
    (authenticate cfg use_ca_certs_for_token_request_initial fetchToken
        fetchUser).token_requests.head? = some ⟨cfg.ca_certs⟩ := by
  refine ⟨rfl, ?_⟩
  have hfirst : (authenticate cfg true fetchToken fetchUser).token_requests.head?
      = some (token_request cfg true) := by
    unfold authenticate
    cases h : fetchToken (token_request cfg true) with
    | ok resp => simp [h]
    | httpError c => simp [h]
    | curlError =>
        cases h2 : fetchToken (token_request cfg false) <;> simp [h, h2]
  exact hfirst

/-- C9: user_in_groups is true iff the intersection of the two group sets
contains a truthy (non-empty-string) element; in particular, when the
only common group name is the empty string, the user does not count as
being in the configured groups. -/
theorem C9_user_in_groups_truthy_intersection (u a : List String) :
    (user_in_groups u a = true ↔ ∃ x ∈ u, x ∈ a ∧ x ≠ "") ∧
    user_in_groups [""] [""] = false :=
  ⟨user_in_groups_spec u a, by decide⟩

/-- C10: given a successfully produced record, the admin key is present
iff admin_groups is configured (non-empty); when it is configured its
value is the admin-group membership result, and in particular a user
admitted with a false admin membership receives an explicit admin value
of false; when admin_groups is unconfigured no admin key is set. -/
theorem C10_admin_key_policy (cfg : Config) (tok : String) (ocp : OcpUser)
    (d : UserInfo)
    (h : _get_openshift_user_info cfg tok (FetchResult.ok ocp) =
      Except.ok (some d)) :
    ((∃ v, ("admin", v) ∈ d) ↔ cfg.admin_groups ≠ []) ∧
    (cfg.admin_groups ≠ [] →
      dictGet d "admin" =
        some (Value.bool (user_in_groups ocp.groups cfg.admin_groups))) ∧
    (cfg.admin_groups ≠ [] →
      user_in_groups ocp.groups cfg.admin_groups = false →
      dictGet d "admin" = some (Value.bool false)) ∧
    (cfg.admin_groups = [] → dictGet d "admin" = none) := by
  rcases get_ok_output cfg tok ocp d h with ⟨hD, _, rfl⟩ | ⟨hD, rfl⟩
  · have hne : cfg.admin_groups ≠ [] := pyTruthyGroups_iff.mp hD
    have hget : dictGet (base_user_info tok ocp ++
        [("admin", Value.bool (user_in_groups ocp.groups cfg.admin_groups))])
          "admin" =
        some (Value.bool (user_in_groups ocp.groups cfg.admin_groups)) := rfl
    refine ⟨⟨fun _ => hne, fun _ => ?_⟩, fun _ => hget,
      fun _ hf => by rw [hget, hf], fun he => absurd he hne⟩
    exact ⟨Value.bool (user_in_groups ocp.groups cfg.admin_groups),
      by simp [base_user_info]⟩
  · have he : cfg.admin_groups = [] := pyTruthyGroups_eq_false.mp hD
    refine ⟨⟨?_, fun hne => absurd he hne⟩, fun hne => absurd he hne,
      fun hne _ => absurd he hne, fun _ => rfl⟩
    rintro ⟨v, hv⟩
    simp [base_user_info] at hv

/-- Witness for C10_admin_key_policy at concrete inputs, hypothesis
discharged. -/
theorem C10_admin_key_policy_witness :
    ((∃ v, ("admin", v) ∈ (base_user_info "tok" ⟨"alice", ["adm"]⟩ ++
        [("admin", Value.bool true)])) ↔ (["adm"] : List String) ≠ []) ∧
    ((["adm"] : List String) ≠ [] →
      dictGet (base_user_info "tok" ⟨"alice", ["adm"]⟩ ++
          [("admin", Value.bool true)]) "admin" =
        some (Value.bool (user_in_groups ["adm"] ["adm"]))) ∧
    ((["adm"] : List String) ≠ [] → user_in_groups ["adm"] ["adm"] = false →
      dictGet (base_user_info "tok" ⟨"alice", ["adm"]⟩ ++
          [("admin", Value.bool true)]) "admin" = some (Value.bool false)) ∧
    ((["adm"] : List String) = [] →
      dictGet (base_user_info "tok" ⟨"alice", ["adm"]⟩ ++
          [("admin", Value.bool true)]) "admin" = none) :=
  C10_admin_key_policy ⟨"", "", [], ["adm"]⟩ "tok" ⟨"alice", ["adm"]⟩
    (base_user_info "tok" ⟨"alice", ["adm"]⟩ ++ [("admin", Value.bool true)])
    rfl

end OpenShift
